import Mathlib

/-
  Verification development for the auditd log analysis core (src/audit.c).

  Shallow embedding notes:
  * Raw audit record lines are modelled as `List Char`; the C `strstr` /
    quoted-field extraction idiom is modelled by `dropAfter`, `hasSub` and
    `extractQuoted`.
  * C `float` arithmetic (EMA smoothing, deviation percentages, the risk
    multiplier) is modelled over the exact rationals `Rat`; the constants
    `0.2f` and `0.1f` become `1/5` and `1/10`.  The cast `(int)(score * 5.0f)`
    is modelled as exact integer multiplication (exact for all scores the
    program can reach before single-precision rounding).
  * Counters incremented with `++` from a zeroed struct are `Nat`; fields
    assigned from `atoi` keep the C `int` signedness and are `Int`.
  * The capacities `MAX_AUDIT_USERS`, `MAX_AUDIT_FILES`, `MAX_AUDIT_ANOMALIES`
    and `AUDIT_PATH_LEN` are declared in include/audit.h, which is not part of
    the analysed sources; they are passed as explicit parameters.
  * The external collaborators `sha256_string`, `build_process_chain` and
    `is_suspicious_chain` (declared in the missing header, implemented
    elsewhere) are parameters of the definitions that use them.
  * `popen`/`fopen` streams are modelled as the list of lines the C loop
    reads (after the shell-side grep filters), with `Option` for streams
    whose open or first read can fail.
-/

namespace CSentinel

/- ============ string primitives (strstr, quoted fields, atoi) ============ -/

/-- Model of `strstr` followed by skipping the pattern: returns the suffix of
`l` that follows the first occurrence of `pat`, or `none` if absent. -/
def dropAfter (pat : List Char) : List Char → Option (List Char)
  | [] => if pat = [] then some [] else none
  | c :: rest =>
    if pat.isPrefixOf (c :: rest) then some ((c :: rest).drop pat.length)
    else dropAfter pat rest

/-- Model of `strstr(l, pat) != NULL`. -/
def hasSub (pat l : List Char) : Bool := (dropAfter pat l).isSome

/-- Model of the C copy loop `while (*p && *p != '"' && i < max)`: the
characters before the first double quote, truncated to `max`. -/
def extractQuoted (max : Nat) (l : List Char) : List Char :=
  (l.takeWhile (fun c => c != '"')).take max

/-- C `isspace` for the default locale. -/
def isSpaceC (c : Char) : Bool :=
  c == ' ' || c == '\t' || c == '\n' || c == '\x0b' || c == '\x0c' || c == '\r'

/-- Accumulate a decimal value over leading digits. -/
def digitsVal : List Char → Nat → Nat
  | [], acc => acc
  | c :: rest, acc => if c.isDigit then digitsVal rest (acc * 10 + (c.toNat - 48)) else acc

/-- Model of C `atoi`: skip whitespace, optional sign, leading digits. -/
def atoi (l : List Char) : Int :=
  match l.dropWhile isSpaceC with
  | '-' :: rest => -(digitsVal rest 0 : Int)
  | '+' :: rest => (digitsVal rest 0 : Int)
  | rest => (digitsVal rest 0 : Int)

/- ============ data model (audit.h structures) ============ -/

structure hashed_user_t where
  hash : String
  count : Nat
deriving DecidableEq

structure process_chain_t where
  names : List String
  depth : Nat
deriving DecidableEq

structure file_access_t where
  path : String
  access_type : String
  count : Nat
  suspicious : Bool
  process : String
  chain : process_chain_t
deriving DecidableEq

structure audit_anomaly_t where
  type : String
  description : String
  severity : String
  current_value : Rat
  baseline_avg : Rat
  deviation_pct : Rat
  timestamp : Int
deriving DecidableEq

structure audit_event_ctx_t where
  event_id : Int
  pid : Int
  ppid : Int
  comm : String
  exe : String
deriving DecidableEq

/-- The probe summary.  The C array+count pairs (`failure_users` with
`failure_user_count`, `sensitive_files` with `sensitive_file_count`,
`anomalies` with `anomaly_count`) are modelled as lists whose length is the
count field. -/
structure audit_summary_t where
  enabled : Bool
  period_seconds : Int
  capture_time : Int
  auth_failures : Nat
  auth_successes : Nat
  failure_users : List hashed_user_t
  brute_force_detected : Bool
  sudo_count : Int
  su_count : Int
  sensitive_files : List file_access_t
  permission_changes : Nat
  ownership_changes : Nat
  tmp_executions : Nat
  devshm_executions : Nat
  shell_spawns : Int
  suspicious_exec_count : Nat
  selinux_enforcing : Bool
  selinux_avc_denials : Int
  apparmor_denials : Int
  auth_baseline_avg : Rat
  auth_deviation_pct : Rat
  sudo_baseline_avg : Rat
  sudo_deviation_pct : Rat
  anomalies : List audit_anomaly_t
  risk_score : Int
  risk_level : String
deriving DecidableEq

structure audit_baseline_t where
  magic : String
  version : Int
  created : Int
  updated : Int
  sample_count : Int
  avg_auth_failures : Rat
  avg_sudo_count : Rat
  avg_sensitive_access : Rat
  avg_tmp_executions : Rat
  avg_shell_spawns : Rat
deriving DecidableEq

/-- `calloc(1, sizeof(audit_summary_t))`: every field zeroed. -/
def zero_summary : audit_summary_t where
  enabled := false
  period_seconds := 0
  capture_time := 0
  auth_failures := 0
  auth_successes := 0
  failure_users := []
  brute_force_detected := false
  sudo_count := 0
  su_count := 0
  sensitive_files := []
  permission_changes := 0
  ownership_changes := 0
  tmp_executions := 0
  devshm_executions := 0
  shell_spawns := 0
  suspicious_exec_count := 0
  selinux_enforcing := false
  selinux_avc_denials := 0
  apparmor_denials := 0
  auth_baseline_avg := 0
  auth_deviation_pct := 0
  sudo_baseline_avg := 0
  sudo_deviation_pct := 0
  anomalies := []
  risk_score := 0
  risk_level := ""

/-- `audit_baseline_t baseline = {0};` -/
def zero_baseline : audit_baseline_t where
  magic := ""
  version := 0
  created := 0
  updated := 0
  sample_count := 0
  avg_auth_failures := 0
  avg_sudo_count := 0
  avg_sensitive_access := 0
  avg_tmp_executions := 0
  avg_shell_spawns := 0

/- ============ username hashing (4.E) ============ -/

/-- `static char username_salt[32] = "sentinel_default_salt";` -/
def username_salt : String := "sentinel_default_salt"

/-- `hash_username`: salted digest, keeping the first 4 hex characters.
`sha256` is the external `sha256_string` collaborator (declared in the
missing header and implemented outside the analysed sources). -/
def hash_username (sha256 : String → String) (username : String) : String :=
  "user_" ++ (sha256 (username_salt ++ ":" ++ username)).take 4

/- ============ auth parser (parse_auth_events, find_or_add_user) ============ -/

/-- Increment the count of the first user whose hash matches (the slot
`find_or_add_user` returns when the hash is already present). -/
def bump_first (h : String) : List hashed_user_t → List hashed_user_t
  | [] => []
  | u :: rest =>
    if u.hash = h then { u with count := u.count + 1 } :: rest
    else u :: bump_first h rest

/-- `find_or_add_user` followed by `user->count++`: bump an existing entry, or
append a fresh entry with count 1 if capacity `m` (MAX_AUDIT_USERS) remains;
otherwise drop the per-user count. -/
def upsert_user (m : Nat) (users : List hashed_user_t) (h : String) : List hashed_user_t :=
  if users.any (fun u => u.hash == h) then bump_first h users
  else if users.length < m then users ++ [{ hash := h, count := 1 }]
  else users

/-- Extraction of `acct="..."` from a raw line, returning the username only
when non-empty (the `strlen(username) > 0` guard). -/
def acct_of (line : List Char) : Option String :=
  match dropAfter ("acct=\"".toList) line with
  | none => none
  | some rest =>
    let u := String.mk (extractQuoted 63 rest)
    if u.length > 0 then some u else none

/-- The body of the `while (fgets(...))` loop of `parse_auth_events` for one
line. -/
def auth_step (sha256 : String → String) (m : Nat)
    (s : audit_summary_t) (line : List Char) : audit_summary_t :=
  if hasSub ("res=failed".toList) line then
    let s1 := { s with auth_failures := s.auth_failures + 1 }
    match acct_of line with
    | some u =>
        { s1 with failure_users := upsert_user m s1.failure_users (hash_username sha256 u) }
    | none => s1
  else if hasSub ("res=success".toList) line then
    { s with auth_successes := s.auth_successes + 1 }
  else s

/-- `parse_auth_events`: fold the loop over the stream (the lines surviving
the shell-side grep filter), then set the brute-force flag. -/
def parse_auth_events (sha256 : String → String) (m : Nat)
    (s : audit_summary_t) (lines : List (List Char)) : audit_summary_t :=
  let s := lines.foldl (auth_step sha256 m) s
  { s with brute_force_detected := decide (s.auth_failures > 5) }

/-- Sum of the per-user failure counts. -/
def userSum (users : List hashed_user_t) : Nat := (users.map (fun u => u.count)).sum

/-- The list of hash tags stored in the user table. -/
def userHashes (users : List hashed_user_t) : List String := users.map (fun u => u.hash)

/-- The account name a line contributes to the per-user failure table:
present only for `res=failed` lines carrying a non-empty `acct="..."`. -/
def failed_acct (line : List Char) : Option String :=
  if hasSub ("res=failed".toList) line then acct_of line else none

/- ============ privilege parser (parse_priv_events) ============ -/

/-- `parse_priv_events`: each query pipes through `grep -c`, so the C code
reads one line and runs `atoi` on it.  `sudo_line` / `su_line` are the first
output line of the respective pipe, `none` when `popen` or `fgets` failed. -/
def parse_priv_events (s : audit_summary_t)
    (sudo_line su_line : Option (List Char)) : audit_summary_t :=
  let s := match sudo_line with
    | some l => { s with sudo_count := atoi l }
    | none => s
  match su_line with
  | some l => { s with su_count := atoi l }
  | none => s

/- ============ file parser (parse_file_events) ============ -/

/-- Extraction of `name="..."` from a PATH line; `pc` is the copy bound
`AUDIT_PATH_LEN - 1`. -/
def extract_path (pc : Nat) (line : List Char) : Option String :=
  match dropAfter ("name=\"".toList) line with
  | none => none
  | some rest => some (String.mk (extractQuoted pc rest))

/-- Chain seeding in `parse_file_events`: first hop is the audited process
`comm`; walk from the parent via the external `build_process_chain` when
`ppid > 1`. -/
def mk_chain (bc : Int → process_chain_t → process_chain_t)
    (c : audit_event_ctx_t) : process_chain_t :=
  let chain : process_chain_t := { names := [c.comm], depth := 1 }
  if c.ppid > 1 then bc c.ppid chain else chain

/-- Construction of a fresh `file_access_t` entry; the Bool reports whether
`suspicious_exec_count` is bumped (i.e. `is_suspicious_chain` fired).
`isS` is the external `is_suspicious_chain` predicate (its reason
out-parameter is ignored by the caller's state). -/
def mk_file_entry (bc : Int → process_chain_t → process_chain_t)
    (isS : process_chain_t → Bool) (path : String)
    (ctx : Option audit_event_ctx_t) : file_access_t × Bool :=
  let fa : file_access_t :=
    { path := path, access_type := "write", count := 1, suspicious := false,
      process := "", chain := { names := [], depth := 0 } }
  let fb : file_access_t × Bool :=
    match ctx with
    | some c =>
      if c.comm ≠ "" then
        let chain := mk_chain bc c
        let fa := { fa with process := c.comm, chain := chain }
        if isS chain then ({ fa with suspicious := true }, true) else (fa, false)
      else (fa, false)
    | none => (fa, false)
  let fa := fb.1
  let fa :=
    if hasSub ("shadow".toList) path.toList || hasSub ("sudoers".toList) path.toList
    then { fa with suspicious := true } else fa
  (fa, fb.2)

/-- Increment the count of the first entry whose path matches (the slot the
dedup scan in `parse_file_events` finds). -/
def bump_file (p : String) : List file_access_t → List file_access_t
  | [] => []
  | f :: rest =>
    if f.path = p then { f with count := f.count + 1 } :: rest
    else f :: bump_file p rest

/-- One iteration of the `parse_file_events` loop.  `ctx` is the outcome of
`extract_event_id` + `get_event_ctx` for the line (`none` when the line has
no serial or the 256-slot cache is full); `maxF` is MAX_AUDIT_FILES. -/
def file_step (bc : Int → process_chain_t → process_chain_t)
    (isS : process_chain_t → Bool) (maxF pc : Nat)
    (s : audit_summary_t) (line : List Char)
    (ctx : Option audit_event_ctx_t) : audit_summary_t :=
  match extract_path pc line with
  | none => s
  | some path =>
    if path.length > 5 ∧ path.toList.getLast? ≠ some '/' ∧
       s.sensitive_files.length < maxF then
      if s.sensitive_files.any (fun f => f.path == path) then
        { s with sensitive_files := bump_file path s.sensitive_files }
      else
        let fb := mk_file_entry bc isS path ctx
        { s with sensitive_files := s.sensitive_files ++ [fb.1],
                 suspicious_exec_count :=
                   s.suspicious_exec_count + (if fb.2 then 1 else 0) }
    else s

/-- `parse_file_events`: fold over the filtered PATH lines paired with their
correlated context slots. -/
def parse_file_events (bc : Int → process_chain_t → process_chain_t)
    (isS : process_chain_t → Bool) (maxF pc : Nat) (s : audit_summary_t)
    (lines : List (List Char × Option audit_event_ctx_t)) : audit_summary_t :=
  lines.foldl (fun s p => file_step bc isS maxF pc s p.1 p.2) s

/-- Sum of the counts of the entries recorded for path `p`. -/
def pathCount (l : List file_access_t) (p : String) : Nat :=
  ((l.filter (fun f => f.path == p)).map (fun f => f.count)).sum

/- ============ exec parser (parse_exec_events) ============ -/

/-- One iteration of the first `parse_exec_events` loop. -/
def exec_step (s : audit_summary_t) (line : List Char) : audit_summary_t :=
  let s := if hasSub ("/tmp/".toList) line
           then { s with tmp_executions := s.tmp_executions + 1 } else s
  if hasSub ("/dev/shm/".toList) line
  then { s with devshm_executions := s.devshm_executions + 1 } else s

/-- `parse_exec_events`: count /tmp and /dev/shm execve lines, then read the
shell-spawn count from the `grep -cE` pipe. -/
def parse_exec_events (s : audit_summary_t) (lines : List (List Char))
    (shell_line : Option (List Char)) : audit_summary_t :=
  let s := lines.foldl exec_step s
  match shell_line with
  | some l => { s with shell_spawns := atoi l }
  | none => s

/- ============ security framework check (check_security_framework) ============ -/

/-- `check_security_framework`.  `enforce_line` is the first line of
`/sys/fs/selinux/enforce` (`none` when the file cannot be opened or read);
the AVC denial count pipe is only consulted inside that branch. -/
def check_security_framework (s : audit_summary_t)
    (enforce_line avc_line apparmor_line : Option (List Char)) : audit_summary_t :=
  let s := match enforce_line with
    | some l =>
      let s := { s with selinux_enforcing := atoi l == 1 }
      match avc_line with
      | some l2 => { s with selinux_avc_denials := atoi l2 }
      | none => s
    | none => s
  match apparmor_line with
  | some l3 => { s with apparmor_denials := atoi l3 }
  | none => s

/- ============ anomaly detection (4.G) ============ -/

/-- The threshold constant `0.1f`, exactly (built with `Rat.divInt`, which
the kernel can evaluate). -/
def pointOne : Rat := Rat.divInt 1 10

/-- `calculate_deviation_pct`; `0.1f` is the exact `1/10`. -/
def calculate_deviation_pct (current baseline_avg : Rat) : Rat :=
  if baseline_avg < pointOne then (if current > 0 then 100 else 0)
  else ((current - baseline_avg) / baseline_avg) * 100

/-- `deviation_significance`. -/
def deviation_significance (deviation_pct : Rat) : String :=
  if deviation_pct > 500 then "CRITICAL"
  else if deviation_pct > 200 then "HIGH"
  else if deviation_pct > 100 then "MEDIUM"
  else if deviation_pct > 50 then "LOW"
  else "NORMAL"

/-- `add_anomaly` with capacity `maxA` (MAX_AUDIT_ANOMALIES); `now` is the
`time(NULL)` timestamp. -/
def add_anomaly (maxA : Nat) (now : Int) (s : audit_summary_t)
    (type description severity : String)
    (current baseline deviation : Rat) : audit_summary_t :=
  if s.anomalies.length ≥ maxA then s
  else
    { s with anomalies := s.anomalies ++
        [{ type := type, description := description, severity := severity,
           current_value := current, baseline_avg := baseline,
           deviation_pct := deviation, timestamp := now }] }

/-- Rendering of the `%.0f` conversion in the anomaly descriptions
(modelled by rounding to the nearest integer). -/
def fmt0 (q : Rat) : String := toString (round q)

/-- Description text of an `auth_failure_spike` anomaly. -/
def auth_spike_desc (n : Nat) (pct : Rat) : String :=
  toString n ++ " auth failures (" ++ fmt0 pct ++ "% above baseline)"

/-- Description text of a `sudo_spike` anomaly. -/
def sudo_spike_desc (n : Int) (pct : Rat) : String :=
  toString n ++ " sudo commands (" ++ fmt0 pct ++ "% above baseline)"

/-- Description text of a `tmp_execution` anomaly. -/
def tmp_exec_desc (n : Nat) : String := toString n ++ " executions from /tmp"

/-- Description text of a `devshm_execution` anomaly. -/
def devshm_exec_desc (n : Nat) : String := toString n ++ " executions from /dev/shm"

/-- `detect_anomalies`: no-op on a missing baseline or fewer than 5 samples;
otherwise store the deviation fields and emit the four anomaly kinds. -/
def detect_anomalies (maxA : Nat) (now : Int) (s : audit_summary_t)
    (baseline : Option audit_baseline_t) : audit_summary_t :=
  match baseline with
  | none => s
  | some b =>
    if b.sample_count < 5 then s
    else
      let s := { s with
        auth_baseline_avg := b.avg_auth_failures,
        auth_deviation_pct :=
          calculate_deviation_pct (s.auth_failures : Rat) b.avg_auth_failures }
      let s :=
        if s.auth_deviation_pct > 100 then
          add_anomaly maxA now s "auth_failure_spike"
            (auth_spike_desc s.auth_failures s.auth_deviation_pct)
            (deviation_significance s.auth_deviation_pct)
            (s.auth_failures : Rat) b.avg_auth_failures s.auth_deviation_pct
        else s
      let s := { s with
        sudo_baseline_avg := b.avg_sudo_count,
        sudo_deviation_pct :=
          calculate_deviation_pct (s.sudo_count : Rat) b.avg_sudo_count }
      let s :=
        if s.sudo_deviation_pct > 200 then
          add_anomaly maxA now s "sudo_spike"
            (sudo_spike_desc s.sudo_count s.sudo_deviation_pct)
            (deviation_significance s.sudo_deviation_pct)
            (s.sudo_count : Rat) b.avg_sudo_count s.sudo_deviation_pct
        else s
      let s :=
        if s.tmp_executions > 0 then
          add_anomaly maxA now s "tmp_execution"
            (tmp_exec_desc s.tmp_executions) "HIGH"
            (s.tmp_executions : Rat) 0 100
        else s
      let s :=
        if s.devshm_executions > 0 then
          add_anomaly maxA now s "devshm_execution"
            (devshm_exec_desc s.devshm_executions) "CRITICAL"
            (s.devshm_executions : Rat) 0 100
        else s
      s

/- ============ risk scoring (calculate_risk_score) ============ -/

/-- `calculate_risk_score`, mirroring the accumulator updates of the C code
statement by statement.  The float multiplications `score * 5.0f` etc. are
modelled exactly over the integers. -/
def calculate_risk_score (s : audit_summary_t) : audit_summary_t :=
  let score : Int := 0
  let score := score + (s.auth_failures : Int) * 1
  let score := if s.brute_force_detected then score + 10 else score
  let score :=
    if s.auth_deviation_pct > 500 then score * 5
    else if s.auth_deviation_pct > 200 then score * 3
    else if s.auth_deviation_pct > 100 then score * 2
    else score
  let score := if s.sudo_deviation_pct > 200 then score + 5 else score
  let score := score + s.su_count * 2
  let score := score + (s.permission_changes : Int) * 3
  let score := score + (s.ownership_changes : Int) * 3
  let score := s.sensitive_files.foldl
    (fun acc f => acc + 2 + (if f.suspicious then 5 else 0)) score
  let score := score + (s.tmp_executions : Int) * 4
  let score := score + (s.devshm_executions : Int) * 6
  let score := score + (s.suspicious_exec_count : Int) * 10
  let score := score + s.selinux_avc_denials * 1
  let score := score + s.apparmor_denials * 1
  { s with risk_score := score,
           risk_level :=
             if score ≥ 31 then "critical"
             else if score ≥ 16 then "high"
             else if score ≥ 6 then "medium"
             else "low" }

/-- The risk-level thresholds as a standalone classification (the spec's
total function of the score). -/
def classify_risk (score : Int) : String :=
  if score ≥ 31 then "critical"
  else if score ≥ 16 then "high"
  else if score ≥ 6 then "medium"
  else "low"

/-- The auth accumulator before the deviation multiplier (steps 1 and 2 of
the scorer). -/
def auth_part (s : audit_summary_t) : Int :=
  (s.auth_failures : Int) * 1 + (if s.brute_force_detected then 10 else 0)

/-- The deviation multiplier ladder. -/
def auth_mult (s : audit_summary_t) : Int :=
  if s.auth_deviation_pct > 500 then 5
  else if s.auth_deviation_pct > 200 then 3
  else if s.auth_deviation_pct > 100 then 2
  else 1

/-- All scorer terms added after the multiplier (steps 4 through 9). -/
def post_auth_part (s : audit_summary_t) : Int :=
  (if s.sudo_deviation_pct > 200 then 5 else 0)
  + s.su_count * 2
  + (s.permission_changes : Int) * 3
  + (s.ownership_changes : Int) * 3
  + s.sensitive_files.foldl (fun acc f => acc + 2 + (if f.suspicious then 5 else 0)) 0
  + (s.tmp_executions : Int) * 4
  + (s.devshm_executions : Int) * 6
  + (s.suspicious_exec_count : Int) * 10
  + s.selinux_avc_denials * 1
  + s.apparmor_denials * 1

/- ============ baseline store (load/update) ============ -/

/-- Outcome of the fopen+fread sequence on whichever baseline path opened:
`noFile` when neither path opened (no `fread` runs, the out-parameter is
untouched); `shortRead junk` when the one-shot `fread` returned short — it
has already deposited the partially read bytes into the out-parameter, whose
resulting value is indeterminate and modelled by the arbitrary record
`junk`; `fullRead r` when a complete record was read into the
out-parameter. -/
inductive baseline_read where
  | noFile : baseline_read
  | shortRead (junk : audit_baseline_t) : baseline_read
  | fullRead (r : audit_baseline_t) : baseline_read
deriving DecidableEq

/-- `load_audit_baseline`.  Returns the C result together with the final
contents of the out-parameter: `fread` fills it before the short-read check
and before the magic is validated, so only the `noFile` path leaves the
prior value. -/
def load_audit_baseline (prior : audit_baseline_t)
    (file : baseline_read) : Bool × audit_baseline_t :=
  match file with
  | .noFile => (false, prior)
  | .shortRead junk => (false, junk)
  | .fullRead r => if r.magic = "SNTLAUDT" then (true, r) else (false, r)

/-- `EMA_ALPHA` (`0.2f`), exactly. -/
def EMA_ALPHA : Rat := 1/5

/-- `update_audit_baseline`; `now` is `time(NULL)`. -/
def update_audit_baseline (now : Int) (b : audit_baseline_t)
    (current : audit_summary_t) : audit_baseline_t :=
  let b :=
    if b.sample_count = 0 then
      { b with magic := "SNTLAUDT", version := 1, created := now,
               avg_auth_failures := (current.auth_failures : Rat),
               avg_sudo_count := (current.sudo_count : Rat),
               avg_sensitive_access := (current.sensitive_files.length : Rat),
               avg_tmp_executions := (current.tmp_executions : Rat),
               avg_shell_spawns := (current.shell_spawns : Rat) }
    else
      { b with
        avg_auth_failures :=
          (current.auth_failures : Rat) * EMA_ALPHA + b.avg_auth_failures * (1 - EMA_ALPHA),
        avg_sudo_count :=
          (current.sudo_count : Rat) * EMA_ALPHA + b.avg_sudo_count * (1 - EMA_ALPHA),
        avg_sensitive_access :=
          (current.sensitive_files.length : Rat) * EMA_ALPHA + b.avg_sensitive_access * (1 - EMA_ALPHA),
        avg_tmp_executions :=
          (current.tmp_executions : Rat) * EMA_ALPHA + b.avg_tmp_executions * (1 - EMA_ALPHA),
        avg_shell_spawns :=
          (current.shell_spawns : Rat) * EMA_ALPHA + b.avg_shell_spawns * (1 - EMA_ALPHA) }
  { b with sample_count := b.sample_count + 1, updated := now }

/- ============ probe orchestrator (probe_audit) ============ -/

/-- The capacity constants declared in include/audit.h (not among the
analysed sources), passed explicitly. -/
structure audit_limits where
  maxUsers : Nat
  maxFiles : Nat
  maxAnoms : Nat
  pathCap : Nat
deriving DecidableEq

/-- The external world one probe observes: the streams each parser reads
(after their shell-side filters) and the result of the baseline load. -/
structure probe_input where
  now : Int
  window : Int
  log_readable : Bool
  auth_lines : List (List Char)
  sudo_line : Option (List Char)
  su_line : Option (List Char)
  file_lines : List (List Char × Option audit_event_ctx_t)
  exec_lines : List (List Char)
  shell_line : Option (List Char)
  selinux_enforce : Option (List Char)
  avc_line : Option (List Char)
  apparmor_line : Option (List Char)
  baseline : Option audit_baseline_t

/-- `probe_audit`: the orchestrator.  `inp.baseline` is the record
`load_audit_baseline` validated (`none` when the load returned false, in
which case the C code skips `detect_anomalies`). -/
def probe_audit (sha256 : String → String)
    (bc : Int → process_chain_t → process_chain_t)
    (isS : process_chain_t → Bool) (lim : audit_limits)
    (inp : probe_input) : audit_summary_t :=
  let s := { zero_summary with
    enabled := true, period_seconds := inp.window, capture_time := inp.now }
  if inp.log_readable then
    let s := parse_auth_events sha256 lim.maxUsers s inp.auth_lines
    let s := parse_priv_events s inp.sudo_line inp.su_line
    let s := parse_file_events bc isS lim.maxFiles lim.pathCap s inp.file_lines
    let s := parse_exec_events s inp.exec_lines inp.shell_line
    let s := check_security_framework s inp.selinux_enforce inp.avc_line inp.apparmor_line
    let s := match inp.baseline with
      | some b => detect_anomalies lim.maxAnoms inp.now s (some b)
      | none => s
    calculate_risk_score s
  else
    { s with enabled := false }

/- ============ concrete fixtures for witnesses and counterexamples ============ -/

/-- A concrete stand-in for the external `sha256_string` collaborator (its
value is irrelevant to every claim; only determinism is used). -/
def cSha : String → String :=
  fun _ => "d2f1a380b1c0e5f49a7c62e81b30d9441c2a6f07a9b8c3d4e5f60718293a4b5c"

/-- A concrete stand-in for the external `build_process_chain` helper. -/
def cBC : Int → process_chain_t → process_chain_t := fun _ c => c

/-- A concrete `is_suspicious_chain` that never fires. -/
def cIsS : process_chain_t → Bool := fun _ => false

/-- A concrete `is_suspicious_chain` that always fires. -/
def cIsSTrue : process_chain_t → Bool := fun _ => true

/-- Concrete capacities for witness probes. -/
def cLim : audit_limits := { maxUsers := 32, maxFiles := 64, maxAnoms := 16, pathCap := 255 }

/-- A raw USER_AUTH failure line with account alice. -/
def lineFailAlice : List Char :=
  ("type=USER_AUTH msg=audit(100.0:11): pid=9 uid=0 acct=\"alice\" exe=\"/usr/sbin/sshd\" res=failed").toList

/-- A raw USER_AUTH failure line with account bob. -/
def lineFailBob : List Char :=
  ("type=USER_AUTH msg=audit(100.5:12): pid=9 uid=0 acct=\"bob\" exe=\"/usr/sbin/sshd\" res=failed").toList

/-- A raw USER_AUTH failure line carrying no acct field at all. -/
def lineFailNoAcct : List Char :=
  ("type=USER_AUTH msg=audit(101.0:13): pid=9 uid=0 exe=\"/usr/sbin/sshd\" res=failed").toList

/-- An interpreted execve record naming a /dev/shm path (scenario S3). -/
def lineDevShm : List Char :=
  ("type=SYSCALL msg=audit(102.0:21): syscall=execve success=yes name=/dev/shm/x").toList

/-- A filtered PATH record naming /etc/passwd. -/
def linePasswd : List Char :=
  ("type=PATH msg=audit(103.0:31): item=0 name=\"/etc/passwd\" nametype=NORMAL").toList

/-- A filtered PATH record naming /etc/shadow. -/
def lineShadow : List Char :=
  ("type=PATH msg=audit(103.0:32): item=0 name=\"/etc/shadow\" nametype=NORMAL").toList

/-- Probe input for scenario S3 with no baseline file: one /dev/shm execve
record, everything else silent. -/
def inpS3 : probe_input where
  now := 0
  window := 3600
  log_readable := true
  auth_lines := []
  sudo_line := none
  su_line := none
  file_lines := []
  exec_lines := [lineDevShm]
  shell_line := none
  selinux_enforce := none
  avc_line := none
  apparmor_line := none
  baseline := none

/-- A mature baseline: 10 samples, all averages still zero. -/
def blMature : audit_baseline_t where
  magic := "SNTLAUDT"
  version := 1
  created := 0
  updated := 0
  sample_count := 10
  avg_auth_failures := 0
  avg_sudo_count := 0
  avg_sensitive_access := 0
  avg_tmp_executions := 0
  avg_shell_spawns := 0

/-- Scenario S3 input again, this time with the mature baseline loaded. -/
def inpS3b : probe_input := { inpS3 with baseline := some blMature }

/-- An immature baseline (4 samples). -/
def blYoung : audit_baseline_t := { blMature with sample_count := 4 }

/-- A baseline record whose first 8 bytes are GARBAGE! (scenario S6). -/
def blGarbage : audit_baseline_t :=
  { blMature with magic := "GARBAGE!", sample_count := 7 }

/-- A summary already holding one /etc/passwd sensitive-file entry. -/
def sOnePasswd : audit_summary_t :=
  { zero_summary with sensitive_files :=
      [{ path := "/etc/passwd", access_type := "write", count := 1,
         suspicious := false, process := "", chain := { names := [], depth := 0 } }] }

/-- The S2-style summary: 20 auth failures, brute force, 900% deviation. -/
def sS2 : audit_summary_t :=
  { zero_summary with auth_failures := 20, brute_force_detected := true,
                      auth_deviation_pct := 900 }

/-- Probe input with an unreadable audit log. -/
def inpUnreadable : probe_input := { inpS3 with log_readable := false }

/-- Probe input observing nothing at all. -/
def inpEmpty : probe_input := { inpS3 with exec_lines := [] }

/- ==================== helper lemmas ==================== -/

/-- Shifting the start value out of the sensitive-file scoring fold. -/
lemma foldl_score_shift (l : List file_access_t) (a : Int) :
    l.foldl (fun acc f => acc + 2 + (if f.suspicious then 5 else 0)) a
      = a + l.foldl (fun acc f => acc + 2 + (if f.suspicious then 5 else 0)) 0 := by
  induction l generalizing a with
  | nil => simp
  | cons f rest ih =>
    simp only [List.foldl_cons]
    rw [ih, ih (0 + 2 + _)]
    ring

/-- The inline risk-level assignment agrees with the standalone
classification of the stored score. -/
lemma calculate_risk_level_classify (s : audit_summary_t) :
    (calculate_risk_score s).risk_level = classify_risk (calculate_risk_score s).risk_score := rfl

/-- The classification only produces the four documented levels. -/
lemma classify_risk_mem (x : Int) :
    classify_risk x ∈ ["low", "medium", "high", "critical"] := by
  unfold classify_risk
  split_ifs <;> simp

/- ==================== C2 ==================== -/

/-- C2: for every summary, anomaly detection is a no-op — emitting no
anomalies and leaving every field (in particular the four
deviation/baseline-average fields) at its prior value — whenever no baseline
was loaded or the loaded baseline has `sample_count < 5`. -/
theorem detect_anomalies_below_min_samples_noop (maxA : Nat) (now : Int)
    (s : audit_summary_t) (b : Option audit_baseline_t)
    (h : ∀ r, b = some r → r.sample_count < 5) :
    detect_anomalies maxA now s b = s := by
  cases b with
  | none => rfl
  | some r =>
    simp only [detect_anomalies]
    rw [if_pos (h r rfl)]

/-- Witness for C2 at a concrete 4-sample baseline. -/
theorem detect_anomalies_below_min_samples_noop_witness :
    detect_anomalies 16 0 zero_summary (some blYoung) = zero_summary :=
  detect_anomalies_below_min_samples_noop 16 0 zero_summary (some blYoung)
    (by intro r h; cases h; decide)

/- ==================== C3 ==================== -/

/-- C3: the risk score is the auth accumulator (failure count plus
brute-force bonus) times the auth-deviation multiplier, plus the terms the
scorer adds afterwards (sudo, su, file, exec and security-framework);
concretely, 20 failures with brute force and a 900% deviation score 150 and
classify as critical. -/
theorem risk_multiplier_ordering :
    (∀ s : audit_summary_t,
        (calculate_risk_score s).risk_score = auth_part s * auth_mult s + post_auth_part s)
    ∧ (calculate_risk_score sS2).risk_score = 150
    ∧ (calculate_risk_score sS2).risk_level = "critical" := by
  refine ⟨fun s => ?_, by decide, by decide⟩
  unfold calculate_risk_score auth_part auth_mult post_auth_part
  simp only
  rw [foldl_score_shift]
  split_ifs <;> ring

/- ==================== C5 ==================== -/

/-- C5 counterexample: loading a full record whose first 8 bytes are
`GARBAGE!` returns false but leaves the file's bytes in the out-parameter —
the record is *not* left unchanged. -/
theorem load_bad_magic_cex :
    load_audit_baseline zero_baseline (baseline_read.fullRead blGarbage) = (false, blGarbage)
    ∧ blGarbage ≠ zero_baseline := by decide

/-- C5 amended: the load returns false for every short read and every record
whose magic differs from `SNTLAUDT`; the out-parameter keeps its prior value
only when no baseline file opened at all — a short read has already
deposited partially read bytes into it, and a fully read but rejected record
overwrites it with the file contents — so callers may rely solely on the
boolean result. -/
theorem load_bad_magic_rejected (prior : audit_baseline_t)
    (file : baseline_read)
    (h : ∀ r, file = baseline_read.fullRead r → r.magic ≠ "SNTLAUDT") :
    (load_audit_baseline prior file).1 = false ∧
    (file = baseline_read.noFile → (load_audit_baseline prior file).2 = prior) ∧
    (∀ r, file = baseline_read.fullRead r → (load_audit_baseline prior file).2 = r) := by
  cases file with
  | noFile =>
    exact ⟨rfl, fun _ => rfl, fun r hr => baseline_read.noConfusion hr⟩
  | shortRead junk =>
    exact ⟨rfl, fun habs => baseline_read.noConfusion habs,
           fun r hr => baseline_read.noConfusion hr⟩
  | fullRead r =>
    have hm := h r rfl
    refine ⟨?_, fun habs => baseline_read.noConfusion habs, fun r2 hr2 => ?_⟩
    · simp [load_audit_baseline, hm]
    · cases hr2
      simp [load_audit_baseline, hm]

/-- Witness for C5 at the concrete garbage record. -/
theorem load_bad_magic_rejected_witness :
    (load_audit_baseline zero_baseline (baseline_read.fullRead blGarbage)).1 = false :=
  (load_bad_magic_rejected zero_baseline (baseline_read.fullRead blGarbage)
    (by intro r h; cases h; decide)).1

/- ==================== C6 ==================== -/

/-- C6 counterexample: on the early return for an unreadable audit log the
summary carries `risk_score = 0` but `risk_level` is the zero-initialized
empty string — not `"low"` and not any of the four documented levels. -/
theorem risk_level_unreadable_cex :
    (probe_audit cSha cBC cIsS cLim inpUnreadable).enabled = false ∧
    (probe_audit cSha cBC cIsS cLim inpUnreadable).risk_score = 0 ∧
    (probe_audit cSha cBC cIsS cLim inpUnreadable).risk_level = "" ∧
    ¬ ((probe_audit cSha cBC cIsS cLim inpUnreadable).risk_level
        ∈ ["low", "medium", "high", "critical"]) := by decide

/-- C6 amended: for every probe whose audit log is readable, the returned
summary's risk level is the monotone classification of its risk score
(critical ≥ 31, high ≥ 16, medium ≥ 6, else low) and lies in the four
documented levels; the unreadable-log early return instead leaves the zeroed
level. -/
theorem probe_risk_level_total (sha256 : String → String)
    (bc : Int → process_chain_t → process_chain_t) (isS : process_chain_t → Bool)
    (lim : audit_limits) (inp : probe_input) (h : inp.log_readable = true) :
    (probe_audit sha256 bc isS lim inp).risk_level
      = classify_risk (probe_audit sha256 bc isS lim inp).risk_score ∧
    (probe_audit sha256 bc isS lim inp).risk_level
      ∈ ["low", "medium", "high", "critical"] := by
  unfold probe_audit
  rw [if_pos h]
  refine ⟨calculate_risk_level_classify _, ?_⟩
  rw [calculate_risk_level_classify]
  exact classify_risk_mem _

/-- Witness for C6 on a readable but empty probe. -/
theorem probe_risk_level_total_witness :
    (probe_audit cSha cBC cIsS cLim inpEmpty).risk_level
      = classify_risk (probe_audit cSha cBC cIsS cLim inpEmpty).risk_score :=
  (probe_risk_level_total cSha cBC cIsS cLim inpEmpty rfl).1

/- ==================== C7 ==================== -/

/-- C7: updating the baseline seeds magic, version, creation time and all
five averages verbatim from the sample when `sample_count = 0`, applies the
exact EMA `new = (1/5)·sample + (4/5)·old` to each tracked average when
`sample_count > 0`, and in both cases bumps `sample_count` by exactly one
(no smoothing) and stamps `updated`. -/
theorem baseline_ema_update (now : Int) (b : audit_baseline_t) (cur : audit_summary_t) :
    (update_audit_baseline now b cur).sample_count = b.sample_count + 1 ∧
    (update_audit_baseline now b cur).updated = now ∧
    (b.sample_count = 0 →
      (update_audit_baseline now b cur).magic = "SNTLAUDT" ∧
      (update_audit_baseline now b cur).version = 1 ∧
      (update_audit_baseline now b cur).created = now ∧
      (update_audit_baseline now b cur).avg_auth_failures = (cur.auth_failures : Rat) ∧
      (update_audit_baseline now b cur).avg_sudo_count = (cur.sudo_count : Rat) ∧
      (update_audit_baseline now b cur).avg_sensitive_access = (cur.sensitive_files.length : Rat) ∧
      (update_audit_baseline now b cur).avg_tmp_executions = (cur.tmp_executions : Rat) ∧
      (update_audit_baseline now b cur).avg_shell_spawns = (cur.shell_spawns : Rat)) ∧
    (b.sample_count > 0 →
      (update_audit_baseline now b cur).avg_auth_failures
        = (1/5 : Rat) * (cur.auth_failures : Rat) + (4/5) * b.avg_auth_failures ∧
      (update_audit_baseline now b cur).avg_sudo_count
        = (1/5 : Rat) * (cur.sudo_count : Rat) + (4/5) * b.avg_sudo_count ∧
      (update_audit_baseline now b cur).avg_sensitive_access
        = (1/5 : Rat) * (cur.sensitive_files.length : Rat) + (4/5) * b.avg_sensitive_access ∧
      (update_audit_baseline now b cur).avg_tmp_executions
        = (1/5 : Rat) * (cur.tmp_executions : Rat) + (4/5) * b.avg_tmp_executions ∧
      (update_audit_baseline now b cur).avg_shell_spawns
        = (1/5 : Rat) * (cur.shell_spawns : Rat) + (4/5) * b.avg_shell_spawns) := by
  by_cases h0 : b.sample_count = 0
  · have hnpos : ¬ (b.sample_count > 0) := by omega
    refine ⟨?_, ?_, fun _ => ?_, fun hpos => absurd hpos hnpos⟩ <;>
      simp [update_audit_baseline, h0]
  · refine ⟨?_, ?_, fun habs => absurd habs h0, fun _ => ?_⟩ <;>
      simp [update_audit_baseline, h0, EMA_ALPHA]
    refine ⟨by ring, by ring, by ring, by ring, by ring⟩

/-- Witness for C7 on the 10-sample baseline and the S2 sample. -/
theorem baseline_ema_update_witness :
    (0 : Int) < blMature.sample_count ∧
    (update_audit_baseline 7 blMature sS2).avg_auth_failures
      = (1/5 : Rat) * (sS2.auth_failures : Rat) + (4/5) * blMature.avg_auth_failures :=
  ⟨by decide, ((baseline_ema_update 7 blMature sS2).2.2.2 (by decide)).1⟩

/- ==================== C8 ==================== -/

/-- C8: after the auth parser completes, the brute-force flag holds exactly
when more than five failures were counted, for every input stream and every
starting summary. -/
theorem brute_force_iff_gt5 (sha256 : String → String) (m : Nat)
    (s : audit_summary_t) (lines : List (List Char)) :
    (parse_auth_events sha256 m s lines).brute_force_detected = true
      ↔ (parse_auth_events sha256 m s lines).auth_failures > 5 := by
  simp [parse_auth_events]

/- ==================== C1 ==================== -/

/-- C1 counterexample: with one /dev/shm execve record and *no* baseline
file, the probe counts the execution but emits no anomaly at all (anomaly
emission requires a loaded baseline with at least 5 samples), contradicting
the claimed `devshm_execution` anomaly. -/
theorem devshm_empty_baseline_cex :
    (probe_audit cSha cBC cIsS cLim inpS3).devshm_executions = 1 ∧
    (probe_audit cSha cBC cIsS cLim inpS3).anomalies = [] := by decide

/-- C1 amended: with one /dev/shm execve record and no baseline the summary
has `devshm_executions = 1`, no anomalies, `risk_score = 6` and
`risk_level = "medium"`; the single CRITICAL `devshm_execution` anomaly with
`deviation_pct = 100` (with the same score and level) appears only when a
loaded baseline has `sample_count ≥ 5`. -/
theorem devshm_scenario :
    (probe_audit cSha cBC cIsS cLim inpS3).devshm_executions = 1 ∧
    (probe_audit cSha cBC cIsS cLim inpS3).anomalies = [] ∧
    (probe_audit cSha cBC cIsS cLim inpS3).risk_score = 6 ∧
    (probe_audit cSha cBC cIsS cLim inpS3).risk_level = "medium" ∧
    (probe_audit cSha cBC cIsS cLim inpS3b).devshm_executions = 1 ∧
    (probe_audit cSha cBC cIsS cLim inpS3b).anomalies.map
      (fun a => (a.type, a.severity, a.deviation_pct))
      = [("devshm_execution", "CRITICAL", 100)] ∧
    (probe_audit cSha cBC cIsS cLim inpS3b).risk_score = 6 ∧
    (probe_audit cSha cBC cIsS cLim inpS3b).risk_level = "medium" := by decide

/- ==================== C4 ==================== -/

/-- `bump_file` preserves the recorded paths. -/
lemma bump_file_map_path (p : String) (l : List file_access_t) :
    (bump_file p l).map (fun f => f.path) = l.map (fun f => f.path) := by
  induction l with
  | nil => rfl
  | cons f rest ih =>
    unfold bump_file
    split_ifs <;> simp [ih]

/-- Unfolding `pathCount` over a cons cell. -/
lemma pathCount_cons (f : file_access_t) (rest : List file_access_t) (p : String) :
    pathCount (f :: rest) p = (if f.path = p then f.count else 0) + pathCount rest p := by
  by_cases hf : f.path = p
  · have hb : (f.path == p) = true := beq_iff_eq.mpr hf
    simp [pathCount, hb, hf]
  · have hb : (f.path == p) = false := beq_eq_false_iff_ne.mpr hf
    simp [pathCount, hb, hf]

/-- `bump_file` adds exactly one to the total count recorded for a present
path. -/
lemma pathCount_bump_file (p : String) (l : List file_access_t)
    (h : l.any (fun f => f.path == p) = true) :
    pathCount (bump_file p l) p = pathCount l p + 1 := by
  induction l with
  | nil => simp at h
  | cons f rest ih =>
    by_cases hf : f.path = p
    · unfold bump_file
      rw [if_pos hf, pathCount_cons, pathCount_cons]
      simp [hf]
      omega
    · have hb : (f.path == p) = false := beq_eq_false_iff_ne.mpr hf
      have h2 : rest.any (fun f => f.path == p) = true := by
        simpa [List.any_cons, hb] using h
      unfold bump_file
      rw [if_neg hf, pathCount_cons, pathCount_cons]
      simp [hf]
      exact ih h2

/-- C4 amended: when a matching PATH line's path is already recorded *and*
the sensitive-file table is below capacity `maxF`, the existing entry's
count is incremented: the table becomes `bump_file`, the recorded total for
that path grows by one, and the path multiset is unchanged (so each path
still appears at most once).  At capacity the whole block — including the
dedup increment — is skipped (see the counterexample). -/
theorem file_dedup_below_capacity
    (bc : Int → process_chain_t → process_chain_t) (isS : process_chain_t → Bool)
    (maxF pc : Nat) (s : audit_summary_t) (line : List Char)
    (ctx : Option audit_event_ctx_t) (path : String)
    (h1 : extract_path pc line = some path)
    (h2 : path.length > 5)
    (h3 : path.toList.getLast? ≠ some '/')
    (h4 : s.sensitive_files.length < maxF)
    (h5 : s.sensitive_files.any (fun f => f.path == path) = true) :
    file_step bc isS maxF pc s line ctx
      = { s with sensitive_files := bump_file path s.sensitive_files } ∧
    pathCount (file_step bc isS maxF pc s line ctx).sensitive_files path
      = pathCount s.sensitive_files path + 1 ∧
    (file_step bc isS maxF pc s line ctx).sensitive_files.map (fun f => f.path)
      = s.sensitive_files.map (fun f => f.path) := by
  have hstep : file_step bc isS maxF pc s line ctx
      = { s with sensitive_files := bump_file path s.sensitive_files } := by
    unfold file_step
    rw [h1]
    simp only
    rw [if_pos ⟨h2, h3, h4⟩, if_pos h5]
  refine ⟨hstep, ?_, ?_⟩
  · rw [hstep]
    exact pathCount_bump_file path s.sensitive_files h5
  · rw [hstep]
    exact bump_file_map_path path s.sensitive_files

/-- Witness for C4 below capacity: the recorded /etc/passwd count rises from
1 to 2. -/
theorem file_dedup_below_capacity_witness :
    pathCount (file_step cBC cIsS 64 255 sOnePasswd linePasswd none).sensitive_files "/etc/passwd"
      = pathCount sOnePasswd.sensitive_files "/etc/passwd" + 1 :=
  (file_dedup_below_capacity cBC cIsS 64 255 sOnePasswd linePasswd none "/etc/passwd"
    (by decide) (by decide) (by decide) (by decide) (by decide)).2.1

/-- C4 counterexample: with the table at capacity (capacity 1, one entry),
a further event for the *already recorded* path /etc/passwd leaves the
summary — including that entry's count — completely unchanged, because the
capacity test guards the dedup increment as well. -/
theorem file_count_at_capacity_cex :
    sOnePasswd.sensitive_files.map (fun f => (f.path, f.count)) = [("/etc/passwd", 1)] ∧
    file_step cBC cIsS 1 255 sOnePasswd linePasswd none = sOnePasswd := by decide

/- ==================== C10 ==================== -/

/-- Case analysis of one file-parser step: the suspicious-exec counter is
either untouched, or bumped by exactly one with a correlated context slot
whose comm is non-empty and whose built chain satisfies the external
predicate. -/
lemma file_step_bump_cases
    (bc : Int → process_chain_t → process_chain_t) (isS : process_chain_t → Bool)
    (maxF pc : Nat) (s : audit_summary_t) (line : List Char)
    (ctx : Option audit_event_ctx_t) :
    (file_step bc isS maxF pc s line ctx).suspicious_exec_count = s.suspicious_exec_count ∨
    ((file_step bc isS maxF pc s line ctx).suspicious_exec_count = s.suspicious_exec_count + 1 ∧
      ∃ c, ctx = some c ∧ c.comm ≠ "" ∧ isS (mk_chain bc c) = true) := by
  unfold file_step
  cases hp : extract_path pc line with
  | none => exact Or.inl rfl
  | some path =>
    simp only
    by_cases hfilter : path.length > 5 ∧ path.toList.getLast? ≠ some '/' ∧
        s.sensitive_files.length < maxF
    · rw [if_pos hfilter]
      by_cases hdup : (s.sensitive_files.any fun f => f.path == path) = true
      · rw [if_pos hdup]
        exact Or.inl rfl
      · rw [if_neg hdup]
        cases hctx : ctx with
        | none =>
          left
          simp [mk_file_entry, hctx]
        | some c =>
          by_cases hcomm : c.comm = ""
          · left
            simp [mk_file_entry, hctx, hcomm]
          · by_cases hsusp : isS (mk_chain bc c) = true
            · right
              refine ⟨?_, c, rfl, hcomm, hsusp⟩
              simp [mk_file_entry, hctx, hcomm, hsusp]
            · left
              simp [mk_file_entry, hctx, hcomm, hsusp]
    · rw [if_neg hfilter]
      exact Or.inl rfl

/-- C10: one file-parser step never changes `suspicious_exec_count` when the
line has no correlated SYSCALL context slot (or one with an empty comm) —
even though the shadow/sudoers rule may still mark the new entry suspicious
— and whenever the counter does change, a context slot with non-empty comm
exists and the external `is_suspicious_chain` accepted the chain built from
it, the counter rising by exactly one. -/
theorem suspicious_exec_frame
    (bc : Int → process_chain_t → process_chain_t) (isS : process_chain_t → Bool)
    (maxF pc : Nat) (s : audit_summary_t) (line : List Char)
    (ctx : Option audit_event_ctx_t) :
    ((∀ c, ctx = some c → c.comm = "") →
      (file_step bc isS maxF pc s line ctx).suspicious_exec_count = s.suspicious_exec_count) ∧
    ((file_step bc isS maxF pc s line ctx).suspicious_exec_count ≠ s.suspicious_exec_count →
      (file_step bc isS maxF pc s line ctx).suspicious_exec_count = s.suspicious_exec_count + 1 ∧
      ∃ c, ctx = some c ∧ c.comm ≠ "" ∧ isS (mk_chain bc c) = true) := by
  rcases file_step_bump_cases bc isS maxF pc s line ctx with hsame | ⟨hone, c, hc, hcomm, hisS⟩
  · exact ⟨fun _ => hsame, fun hne => absurd hsame hne⟩
  · refine ⟨fun hempty => absurd (hempty c hc) hcomm, fun _ => ⟨hone, c, hc, hcomm, hisS⟩⟩

/-- Witness for C10: a shadow PATH line with no correlated context yields a
suspicious entry while `suspicious_exec_count` stays at zero. -/
theorem suspicious_exec_frame_witness :
    (file_step cBC cIsS 64 255 zero_summary lineShadow none).suspicious_exec_count
      = zero_summary.suspicious_exec_count ∧
    (file_step cBC cIsS 64 255 zero_summary lineShadow none).sensitive_files.map
      (fun f => (f.path, f.suspicious)) = [("/etc/shadow", true)] :=
  ⟨(suspicious_exec_frame cBC cIsS 64 255 zero_summary lineShadow none).1
      (fun c hc => Option.noConfusion hc),
   by decide⟩

/- ==================== C9 ==================== -/

/-- The linear scan of `find_or_add_user` succeeds exactly when the hash tag
is already recorded. -/
lemma any_hash_mem (users : List hashed_user_t) (h : String) :
    (users.any fun u => u.hash == h) = true ↔ h ∈ userHashes users := by
  unfold userHashes
  rw [List.any_eq_true]
  constructor
  · rintro ⟨x, hx, he⟩
    rw [beq_iff_eq] at he
    exact List.mem_map.mpr ⟨x, hx, he⟩
  · intro hm
    rcases List.mem_map.mp hm with ⟨x, hx, he⟩
    exact ⟨x, hx, beq_iff_eq.mpr he⟩

/-- Bumping a user's count does not change the recorded hash tags. -/
lemma userHashes_bump (h : String) (users : List hashed_user_t) :
    userHashes (bump_first h users) = userHashes users := by
  induction users with
  | nil => rfl
  | cons u rest ih =>
    by_cases hc : u.hash = h
    · simp [bump_first, hc, userHashes]
    · simp only [bump_first, if_neg hc, userHashes, List.map_cons]
      rw [show (bump_first h rest).map (fun u => u.hash) = userHashes (bump_first h rest) from rfl,
          show rest.map (fun u => u.hash) = userHashes rest from rfl, ih]

/-- Bumping a recorded hash raises the total count by one. -/
lemma userSum_bump_mem (h : String) (users : List hashed_user_t)
    (hm : h ∈ userHashes users) :
    userSum (bump_first h users) = userSum users + 1 := by
  induction users with
  | nil => simp [userHashes] at hm
  | cons u rest ih =>
    by_cases hc : u.hash = h
    · simp [bump_first, hc, userSum]
      omega
    · have hmem : h ∈ userHashes rest := by
        have hm2 : h ∈ u.hash :: userHashes rest := by
          simpa only [userHashes, List.map_cons] using hm
        rcases List.mem_cons.mp hm2 with h1 | h1
        · exact absurd h1.symm hc
        · exact h1
      have := ih hmem
      simp only [bump_first, if_neg hc, userSum, List.map_cons, List.sum_cons] at this ⊢
      omega

/-- Upserting raises the total count by at most one (exactly one except when
a new user is dropped at capacity). -/
lemma userSum_upsert_le (m : Nat) (users : List hashed_user_t) (h : String) :
    userSum (upsert_user m users h) ≤ userSum users + 1 := by
  unfold upsert_user
  split_ifs with hany hlen
  · rw [userSum_bump_mem h users ((any_hash_mem users h).mp hany)]
  · simp [userSum]
  · omega

/-- One auth-parser step preserves the invariant that the per-user counts
never exceed the aggregate failure counter. -/
lemma auth_step_le (sha256 : String → String) (m : Nat)
    (s : audit_summary_t) (line : List Char)
    (hinv : userSum s.failure_users ≤ s.auth_failures) :
    userSum (auth_step sha256 m s line).failure_users
      ≤ (auth_step sha256 m s line).auth_failures := by
  unfold auth_step
  by_cases hf : hasSub ("res=failed".toList) line = true
  · rw [if_pos hf]
    cases hacct : acct_of line with
    | some u =>
      simp only
      have := userSum_upsert_le m s.failure_users (hash_username sha256 u)
      omega
    | none =>
      simp only
      omega
  · rw [if_neg hf]
    split_ifs <;> exact hinv

/-- Folding the auth parser over any stream preserves the count bound. -/
lemma auth_foldl_le (sha256 : String → String) (m : Nat) (lines : List (List Char)) :
    ∀ s : audit_summary_t, userSum s.failure_users ≤ s.auth_failures →
    userSum ((lines.foldl (auth_step sha256 m) s).failure_users)
      ≤ (lines.foldl (auth_step sha256 m) s).auth_failures := by
  induction lines with
  | nil => exact fun s h => h
  | cons l rest ih =>
    intro s h
    simp only [List.foldl_cons]
    exact ih _ (auth_step_le sha256 m s l h)

/-- Shape of one auth-parser step on a failed line carrying an account. -/
lemma auth_step_failed (sha256 : String → String) (m : Nat)
    (s : audit_summary_t) (line : List Char) (u : String)
    (hf : hasSub ("res=failed".toList) line = true)
    (hu : acct_of line = some u) :
    (auth_step sha256 m s line).failure_users
      = upsert_user m s.failure_users (hash_username sha256 u) ∧
    (auth_step sha256 m s line).auth_failures = s.auth_failures + 1 := by
  unfold auth_step
  rw [if_pos hf, hu]
  exact ⟨rfl, rfl⟩

/-- One auth-parser step on a non-failed line leaves the failure fields
untouched. -/
lemma auth_step_not_failed (sha256 : String → String) (m : Nat)
    (s : audit_summary_t) (line : List Char)
    (hf : ¬ (hasSub ("res=failed".toList) line = true)) :
    (auth_step sha256 m s line).failure_users = s.failure_users ∧
    (auth_step sha256 m s line).auth_failures = s.auth_failures := by
  unfold auth_step
  rw [if_neg hf]
  split_ifs <;> exact ⟨rfl, rfl⟩

/-- Appending a singleton to a list, seen as a finset, inserts the element. -/
lemma toFinset_append_singleton (L : List String) (a : String) :
    (L ++ [a]).toFinset = insert a L.toFinset := by
  ext x
  simp [or_comm]

/-- Moving a freshly inserted element across a union. -/
lemma insert_union_swap (a : String) (C F : Finset String) :
    insert a C ∪ F = C ∪ insert a F := by
  ext x
  simp only [Finset.mem_union, Finset.mem_insert]
  tauto

set_option maxHeartbeats 1000000 in
/-- Folding the auth parser keeps the counts exact as long as every failed
line carries an account and the distinct hash tags (recorded plus still to
come) fit in the capacity. -/
lemma auth_foldl_exact (sha256 : String → String) (m : Nat) :
    ∀ (lines : List (List Char)) (s : audit_summary_t),
    (∀ l ∈ lines, hasSub ("res=failed".toList) l = true → (acct_of l).isSome = true) →
    (userHashes s.failure_users).Nodup →
    ((userHashes s.failure_users).toFinset ∪
       ((lines.filterMap failed_acct).map (hash_username sha256)).toFinset).card ≤ m →
    userSum s.failure_users = s.auth_failures →
    userSum ((lines.foldl (auth_step sha256 m) s).failure_users)
      = (lines.foldl (auth_step sha256 m) s).auth_failures := by
  intro lines
  induction lines with
  | nil => exact fun s _ _ _ hsum => hsum
  | cons l rest ih =>
    intro s hall hnd hcard hsum
    simp only [List.foldl_cons]
    by_cases hf : hasSub ("res=failed".toList) l = true
    · obtain ⟨u, hu⟩ : ∃ u, acct_of l = some u := by
        have hsome := hall l (List.mem_cons_self l rest) hf
        cases hacct : acct_of l with
        | some u => exact ⟨u, rfl⟩
        | none => rw [hacct] at hsome; simp at hsome
      have hstep_users : (auth_step sha256 m s l).failure_users
          = upsert_user m s.failure_users (hash_username sha256 u) :=
        (auth_step_failed sha256 m s l u hf hu).1
      have hstep_fail : (auth_step sha256 m s l).auth_failures = s.auth_failures + 1 :=
        (auth_step_failed sha256 m s l u hf hu).2
      have hfa : failed_acct l = some u := by
        unfold failed_acct
        rw [if_pos hf, hu]
      have hfut : ((l :: rest).filterMap failed_acct).map (hash_username sha256)
          = hash_username sha256 u
            :: ((rest.filterMap failed_acct).map (hash_username sha256)) := by
        simp [List.filterMap_cons, hfa]
      rw [hfut, List.toFinset_cons] at hcard
      have hall2 : ∀ l2 ∈ rest, hasSub ("res=failed".toList) l2 = true →
          (acct_of l2).isSome = true :=
        fun l2 hl2 => hall l2 (List.mem_cons_of_mem l hl2)
      by_cases hmem : hash_username sha256 u ∈ userHashes s.failure_users
      · have hany : (s.failure_users.any fun x => x.hash == hash_username sha256 u) = true :=
          (any_hash_mem s.failure_users (hash_username sha256 u)).mpr hmem
        have hup : upsert_user m s.failure_users (hash_username sha256 u)
            = bump_first (hash_username sha256 u) s.failure_users := by
          unfold upsert_user
          rw [if_pos hany]
        apply ih
        · exact hall2
        · rw [hstep_users, hup, userHashes_bump]
          exact hnd
        · rw [hstep_users, hup, userHashes_bump]
          refine le_trans (Finset.card_le_card ?_) hcard
          exact Finset.union_subset_union_right (Finset.subset_insert _ _)
        · rw [hstep_users, hstep_fail, hup,
              userSum_bump_mem (hash_username sha256 u) s.failure_users hmem, hsum]
      · have hnotany : ¬ ((s.failure_users.any fun x => x.hash == hash_username sha256 u) = true) := by
          rw [any_hash_mem]
          exact hmem
        have hnotC : hash_username sha256 u ∉ (userHashes s.failure_users).toFinset := by
          rw [List.mem_toFinset]
          exact hmem
        have hlen : s.failure_users.length < m := by
          have hsub : insert (hash_username sha256 u) ((userHashes s.failure_users).toFinset)
              ⊆ (userHashes s.failure_users).toFinset ∪
                insert (hash_username sha256 u)
                  ((rest.filterMap failed_acct).map (hash_username sha256)).toFinset := by
            intro x hx
            rcases Finset.mem_insert.mp hx with rfl | hx
            · exact Finset.mem_union_right _ (Finset.mem_insert_self _ _)
            · exact Finset.mem_union_left _ hx
          have hcardins : ((userHashes s.failure_users).toFinset).card + 1 ≤ m := by
            rw [← Finset.card_insert_of_not_mem hnotC]
            exact le_trans (Finset.card_le_card hsub) hcard
          have hlenC : (userHashes s.failure_users).toFinset.card
              = (userHashes s.failure_users).length := List.toFinset_card_of_nodup hnd
          have hlenU : (userHashes s.failure_users).length = s.failure_users.length := by
            simp [userHashes]
          omega
        have hup : upsert_user m s.failure_users (hash_username sha256 u)
            = s.failure_users ++ [{ hash := hash_username sha256 u, count := 1 }] := by
          unfold upsert_user
          rw [if_neg hnotany, if_pos hlen]
        have happh : userHashes (s.failure_users ++ [{ hash := hash_username sha256 u, count := 1 }])
            = userHashes s.failure_users ++ [hash_username sha256 u] := by
          simp [userHashes]
        apply ih
        · exact hall2
        · rw [hstep_users, hup, happh]
          refine List.Nodup.append hnd (List.nodup_singleton _) ?_
          intro x hx hx2
          rw [List.mem_singleton] at hx2
          subst hx2
          exact hmem hx
        · rw [hstep_users, hup, happh, toFinset_append_singleton, insert_union_swap]
          exact hcard
        · rw [hstep_users, hstep_fail, hup]
          have : userSum (s.failure_users ++ [{ hash := hash_username sha256 u, count := 1 }])
              = userSum s.failure_users + 1 := by
            simp [userSum]
          rw [this, hsum]
    · have hstep : (auth_step sha256 m s l).failure_users = s.failure_users ∧
          (auth_step sha256 m s l).auth_failures = s.auth_failures :=
        auth_step_not_failed sha256 m s l hf
      have hfa : failed_acct l = none := by
        unfold failed_acct
        rw [if_neg hf]
      apply ih
      · exact fun l2 hl2 => hall l2 (List.mem_cons_of_mem l hl2)
      · rw [hstep.1]
        exact hnd
      · rw [hstep.1]
        simpa [List.filterMap_cons, hfa] using hcard
      · rw [hstep.1, hstep.2]
        exact hsum

/-- C9 counterexample: a single `res=failed` line carrying no `acct="..."`
field yields `auth_failures = 1` with an empty per-user table — the number
of distinct failing users (0) is within any capacity, yet the per-user sum
(0) is strictly below `auth_failures`. -/
theorem user_counts_no_acct_cex :
    (parse_auth_events cSha 32 zero_summary [lineFailNoAcct]).auth_failures = 1 ∧
    (parse_auth_events cSha 32 zero_summary [lineFailNoAcct]).failure_users = [] := by decide

/-- C9 amended: after every probe the per-user failure counts sum to at most
`auth_failures`, and equality holds whenever every `res=failed` line carries
a non-empty `acct="..."` field and the distinct hash tags of those accounts
fit within the capacity `MAX_AUDIT_USERS`. -/
theorem user_counts_vs_failures (sha256 : String → String) (m : Nat)
    (lines : List (List Char)) :
    userSum (parse_auth_events sha256 m zero_summary lines).failure_users
      ≤ (parse_auth_events sha256 m zero_summary lines).auth_failures ∧
    ((∀ l ∈ lines, hasSub ("res=failed".toList) l = true → (acct_of l).isSome = true) →
      ((lines.filterMap failed_acct).map (hash_username sha256)).toFinset.card ≤ m →
      userSum (parse_auth_events sha256 m zero_summary lines).failure_users
        = (parse_auth_events sha256 m zero_summary lines).auth_failures) := by
  simp only [parse_auth_events]
  constructor
  · exact auth_foldl_le sha256 m lines zero_summary (by simp [userSum, zero_summary])
  · intro h1 h2
    apply auth_foldl_exact sha256 m lines zero_summary h1
    · simp [userHashes, zero_summary]
    · simpa [userHashes, zero_summary] using h2
    · simp [userSum, zero_summary]

/-- Witness for C9: two failed logins with accounts within capacity give a
per-user sum equal to the failure count. -/
theorem user_counts_vs_failures_witness :
    userSum (parse_auth_events cSha 32 zero_summary [lineFailAlice, lineFailBob]).failure_users
      = (parse_auth_events cSha 32 zero_summary [lineFailAlice, lineFailBob]).auth_failures :=
  (user_counts_vs_failures cSha 32 [lineFailAlice, lineFailBob]).2 (by decide) (by decide)

end CSentinel
